import Mathlib

/-!
# Verification of the RadixIoT backend hub (`src/backend/api.py`)

Shallow embedding of the ingestion / alerting / correlation hub of the
RadixIoT backend.  Python floats are modelled as rationals (`ℚ`), machine
integers as `ℤ`/`ℕ`, JSON values as an inductive `Json` type, and the
`asyncio.Queue`-based fetch correlation as explicit state passing.
Each definition is translated from the named function of `api.py`.
-/

namespace RadixIoT

/-- JSON values as produced by `json.loads` / consumed by `json.dumps`.
Objects are ordered key/value lists (Python dicts preserve insertion
order); numbers are rationals. -/
inductive Json where
  | str : String → Json
  | num : ℚ → Json
  | bool : Bool → Json
  | null : Json
  | arr : List Json → Json
  | obj : List (String × Json) → Json

/-- Python `dict` lookup on an association list: the last binding of a key
wins, as in a dict built left to right. -/
def jsonLookup (l : List (String × Json)) (k : String) : Option Json :=
  (l.reverse.find? (fun p => p.1 == k)).map (fun p => p.2)

/-- `data.get(k)` / `k in data` on an object; `none` on any non-object. -/
def Json.get? (j : Json) (k : String) : Option Json :=
  match j with
  | .obj l => jsonLookup l k
  | _ => none

/-! ## Pydantic model `DataPayload` (api.py:184-189) and its parsing -/

/-- The request-style submission shape (`class DataPayload(BaseModel)`,
api.py:184): `timestamp: float, device_id: str, channels: list[str],
temperatures: list[float], raw_registers: list[int]`.  Note the model
declares no validator relating the three list lengths. -/
structure DataPayload where
  timestamp : ℚ
  device_id : String
  channels : List String
  temperatures : List ℚ
  raw_registers : List ℤ
deriving DecidableEq

/-- Extract a JSON string (field typed `str`). -/
def asStr : Json → Option String
  | .str s => some s
  | _ => none

/-- Extract a JSON number (field typed `float`). -/
def asNum : Json → Option ℚ
  | .num q => some q
  | _ => none

/-- Extract a JSON integer (field typed `int`): a number with denominator 1. -/
def asInt : Json → Option ℤ
  | .num q => if q.den = 1 then some q.num else none
  | _ => none

/-- Elementwise validation of a JSON array's members. -/
def listParse (f : Json → Option α) : List Json → Option (List α)
  | [] => some []
  | x :: xs => do
    let a ← f x
    let rest ← listParse f xs
    pure (a :: rest)

/-- Extract a JSON array whose elements all parse with `f`. -/
def asList (f : Json → Option α) : Json → Option (List α)
  | .arr l => listParse f l
  | _ => none

/-- Validation of a request body against `DataPayload` (api.py:184-189):
each declared field must be present with the declared type; no other
constraint is checked — in particular no relation between the lengths of
`channels`, `temperatures` and `raw_registers`. -/
def parseDataPayload (j : Json) : Option DataPayload := do
  let ts ← (j.get? "timestamp").bind asNum
  let id ← (j.get? "device_id").bind asStr
  let cs ← (j.get? "channels").bind (asList asStr)
  let temps ← (j.get? "temperatures").bind (asList asNum)
  let regs ← (j.get? "raw_registers").bind (asList asInt)
  pure ⟨ts, id, cs, temps, regs⟩

/-- JSON encoding of a structured submission body, field for field the
shape accepted by the `/data` endpoint (api.py:267). -/
def encodePayload (ts : ℚ) (id : String) (cs : List String)
    (temps : List ℚ) (regs : List ℤ) : Json :=
  .obj [("timestamp", .num ts), ("device_id", .str id),
        ("channels", .arr (cs.map .str)),
        ("temperatures", .arr (temps.map .num)),
        ("raw_registers", .arr (regs.map (fun z : ℤ => Json.num (z : ℚ))))]

/-! ## Threshold evaluator (`check_temperature_thresholds`, api.py:709-733) -/

/-- A row of the `channel_thresholds` table (api.py:122-132): `threshold`,
`alert_interval_sec` and `last_alert_ts` are nullable columns. -/
structure ThresholdRow where
  channel : String
  enabled : Bool
  threshold : Option ℚ
  alert_interval_sec : Option ℤ
  last_alert_ts : Option ℚ
deriving DecidableEq

/-- `threshold_dict = {t['channel']: t for t in thresholds}` (api.py:714):
a dict comprehension keeps the last row per channel. -/
def lookupRow (rows : List ThresholdRow) (c : String) : Option ThresholdRow :=
  rows.reverse.find? (fun r => r.channel == c)

/-- `interval = threshold_config.get('alert_interval_sec') or 300`
(api.py:725): Python `or` replaces both `None` and `0` by `300`. -/
def effectiveInterval (r : ThresholdRow) : ℤ :=
  match r.alert_interval_sec with
  | none => 300
  | some i => if i = 0 then 300 else i

/-- `last_alert_ts = threshold_config.get('last_alert_ts') or 0`
(api.py:724). -/
def lastAlertOr0 (r : ThresholdRow) : ℚ :=
  r.last_alert_ts.getD 0

/-- An alert decision: the arguments passed to `send_temperature_alert`
(api.py:727) besides the measurement itself. -/
structure AlertDecision where
  channel : String
  temperature : ℚ
  threshold : ℚ
deriving DecidableEq

/-- The guard chain of one iteration of the `check_temperature_thresholds`
loop (api.py:717-726), for one `(channel, temp)` pair against the
snapshot `rows`: `threshold_config` must exist, be `enabled`, have a
non-null `threshold`, `temp` must be strictly above it, and
`now_ts - last_alert_ts >= interval` must hold; then the pair alerts. -/
def evalPair (rows : List ThresholdRow) (now : ℚ) (c : String) (t : ℚ) :
    Option AlertDecision :=
  match lookupRow rows c with
  | none => none
  | some r =>
    if r.enabled then
      match r.threshold with
      | none => none
      | some th =>
        if th < t then
          if (effectiveInterval r : ℚ) ≤ now - lastAlertOr0 r then
            some ⟨c, t, th⟩
          else none
        else none
    else none

/-- The loop of `check_temperature_thresholds` (api.py:716-733) over
`zip(data['channels'], data['temperatures'])`, against the snapshot
`rows` fetched once before the loop (the in-loop DB update is not
re-read).  Returns the alert decisions in loop order together with the
`last_alert_ts := now` writes issued to the config store (api.py:729-733,
one write per alert, in the same iteration). -/
def checkPairs (rows : List ThresholdRow) (now : ℚ) :
    List (String × ℚ) → List AlertDecision × List (String × ℚ)
  | [] => ([], [])
  | (c, t) :: rest =>
    let res := checkPairs rows now rest
    match evalPair rows now c t with
    | some d => (d :: res.1, (d.channel, now) :: res.2)
    | none => res

/-- `check_temperature_thresholds` (api.py:709-733): fetch all threshold
rows (the snapshot), return early when there are none, else evaluate every
`(channel, temperature)` pair of the measurement. -/
def check_temperature_thresholds (rows : List ThresholdRow) (now : ℚ)
    (data : DataPayload) : List AlertDecision × List (String × ℚ) :=
  if rows = [] then ([], [])
  else checkPairs rows now (data.channels.zip data.temperatures)

/-! ## Broadcast hub (`broadcast_to_frontend`, api.py:666-668) -/

/-- A pooled websocket connection; `alive` records whether `send_text`
on it succeeds (a dead connection's send raises). -/
structure Client where
  cid : ℕ
  alive : Bool
deriving DecidableEq

/-- Outcome of one `client.send_text(message)` attempt: `true` on
success, `false` when the awaited send raised (collected, not
propagated, by `asyncio.gather(..., return_exceptions=True)`). -/
def send_text (c : Client) : Bool := c.alive

/-- `broadcast_to_frontend` (api.py:666-668): fan a message out to every
member of the observer pool, collecting each per-client outcome via
`asyncio.gather(..., return_exceptions=True)`.  The function never
mutates `frontend_clients`, so the pool after the call (second
component) is the pool it was given. -/
def broadcast_to_frontend (pool : List Client) (_message : String) :
    List (Client × Bool) × List Client :=
  (pool.map (fun c => (c, send_text c)), pool)

/-! ## Fetch correlator (`trigger_ftp_fetch`, api.py:442-457, and
`receive_ftp_zip`, api.py:299-335) -/

/-- Shared correlator state: the number of connected device-pool
websockets (`gateway_clients`), the artifacts sitting in
`ftp_file_queue`, and the FIFO of coroutines currently suspended in
`ftp_file_queue.get()` (asyncio queue getter list).  Artifacts are
identified by `ℕ` ids. -/
structure QState where
  gateways : ℕ
  queue : List ℕ
  getters : List ℕ
deriving DecidableEq

/-- What the synchronous prefix of `trigger_ftp_fetch` does before the
request either returns or suspends. -/
inductive EntryOutcome where
  | noDevices      -- HTTPException 503 "No gateways connected"
  | immediate (a : ℕ)  -- `queue.get()` popped an already-queued artifact
  | awaiting       -- suspended in `asyncio.wait_for(queue.get(), 60)`
deriving DecidableEq

structure EntryResult where
  outcome : EntryOutcome
  dispatched : Bool  -- was the "ftp-fetch" command broadcast to devices
  state : QState
deriving DecidableEq

/-- `trigger_ftp_fetch` (api.py:442-457) up to its first suspension
point, with `asyncio.Queue` getter semantics: fail fast only when no
gateway is connected (api.py:444-445); otherwise broadcast `"ftp-fetch"`
(api.py:448) and call `ftp_file_queue.get()`, which pops the head of a
non-empty queue immediately and otherwise appends this coroutine to the
getter FIFO.  No other guard exists: the state of `getters` is never
consulted. -/
def trigger_ftp_fetch_entry (s : QState) (w : ℕ) : EntryResult :=
  if s.gateways = 0 then ⟨.noDevices, false, s⟩
  else
    match s.queue with
    | a :: rest => ⟨.immediate a, true, ⟨s.gateways, rest, s.getters⟩⟩
    | [] => ⟨.awaiting, true, ⟨s.gateways, [], s.getters ++ [w]⟩⟩

/-- How a whole `trigger_ftp_fetch` request resolves. -/
inductive FetchResult where
  | noDevices       -- HTTPException 503, before any dispatch or wait
  | file (a : ℕ)    -- FileResponse of the zip path obtained from the queue
  | timeout         -- HTTPException 504 from asyncio.TimeoutError
deriving DecidableEq

structure FetchRun where
  result : FetchResult
  dispatched : Bool
  queueAfter : List ℕ
deriving DecidableEq

/-- A whole `trigger_ftp_fetch` request (api.py:442-457) as the single
outstanding getter, given the artifacts already in `ftp_file_queue` and
the timed list `deliveries` of later `ftp_file_queue.put` calls issued by
`receive_ftp_zip` (api.py:313), each tagged with its arrival time in
seconds after the wait starts, in order.  `asyncio.wait_for(queue.get(),
timeout=60.0)`: a non-empty queue resolves at once; else the first put
arriving strictly before 60 s is handed to the getter; otherwise the
getter is cancelled with `TimeoutError` — and every delivery not handed
over stays in the queue, which no code ever drains. -/
def trigger_ftp_fetch (gateways : ℕ) (queue : List ℕ)
    (deliveries : List (ℚ × ℕ)) : FetchRun :=
  if gateways = 0 then ⟨.noDevices, false, queue⟩
  else
    match queue with
    | a :: rest => ⟨.file a, true, rest ++ deliveries.map Prod.snd⟩
    | [] =>
      match deliveries with
      | [] => ⟨.timeout, true, []⟩
      | (t, a) :: rest =>
        if t < 60 then ⟨.file a, true, rest.map Prod.snd⟩
        else ⟨.timeout, true, ((t, a) :: rest).map Prod.snd⟩

/-! ## Device-stream message handling (`ws_gateway`, api.py:475-531) -/

/-- What the `ws_gateway` loop body does with one inbound message. -/
inductive GatewayAction where
  | measurement (payload : Json)
      -- insert into `measurements`, run `check_temperature_thresholds`,
      -- broadcast the measurement envelope (api.py:502-518)
  | gatewayMessage (content : Json)
      -- broadcast the gateway_message envelope only (api.py:520-526)
  | crash
      -- `payload.get('device_id')` raised AttributeError: the exception
      -- escapes the `except WebSocketDisconnect` handler and the
      -- connection is torn down

/-- `data = json.loads(text)` with `except: data = {"raw": text}`
(api.py:484-487): `parsed` is the parse result (`none` when `json.loads`
raised). -/
def parsedData (parsed : Option Json) (text : String) : Json :=
  match parsed with
  | some j => j
  | none => .obj [("raw", .str text)]

/-- `isinstance(data, dict) and ("device_id" in data or "data" in data)`
(api.py:493): key presence only, the value under `"data"` is not
inspected. -/
def measurementCandidate (j : Json) : Bool :=
  match j with
  | .obj l => (jsonLookup l "device_id").isSome || (jsonLookup l "data").isSome
  | _ => false

/-- The branch of the `ws_gateway` receive loop (api.py:492-526):
`payload = data.get("data", data)`, then the measurement path calls
`payload.get('device_id')` (api.py:496), which raises unless `payload`
is a dict; the else branch broadcasts the message as an opaque gateway
event. -/
def ws_dispatch (parsed : Option Json) (text : String) : GatewayAction :=
  let data := parsedData parsed text
  if measurementCandidate data then
    let payload := match data.get? "data" with
      | some v => v
      | none => data
    match payload with
    | .obj l => .measurement (.obj l)
    | _ => .crash
  else .gatewayMessage data

/-- One iteration of the `ws_gateway` receive loop (api.py:483-526):
after the message is received and parsed, `last_data_time =
datetime.datetime.utcnow()` runs unconditionally (api.py:489-490),
before the measurement/opaque branch.  First component: the new
`last_data_time`. -/
def ws_gateway_step (parsed : Option Json) (text : String) (now : ℚ) :
    ℚ × GatewayAction :=
  (now, ws_dispatch parsed text)

/-! ## Outbound envelopes (api.py:289-293, 512-517, 522-526) -/

/-- `payload.dict()` of a `DataPayload`, in field declaration order. -/
def payloadFields (p : DataPayload) : List (String × Json) :=
  [("timestamp", .num p.timestamp),
   ("device_id", .str p.device_id),
   ("channels", .arr (p.channels.map .str)),
   ("temperatures", .arr (p.temperatures.map .num)),
   ("raw_registers", .arr (p.raw_registers.map (fun z : ℤ => Json.num (z : ℚ))))]

/-- The observer-pool envelope built on the request-style path
(api.py:289-293): `{"type": "measurement", **payload.dict(),
"received_at": ...}` — the payload fields are spread at top level. -/
def restMeasurementEnvelope (p : DataPayload) (receivedAt : String) : Json :=
  .obj (("type", .str "measurement") ::
        payloadFields p ++ [("received_at", .str receivedAt)])

/-- The observer-pool envelope built on the stream-style path
(api.py:512-517): `{"type": "measurement", "device_id":
payload.get("device_id"), "payload": payload, "received_at": ...}` — the
payload is nested under a `"payload"` key. -/
def wsMeasurementEnvelope (payload : Json) (receivedAt : String) : Json :=
  .obj [("type", .str "measurement"),
        ("device_id", (payload.get? "device_id").getD .null),
        ("payload", payload),
        ("received_at", .str receivedAt)]

/-- The opaque-event envelope (api.py:522-526). -/
def gatewayMessageEnvelope (content : Json) (receivedAt : String) : Json :=
  .obj [("type", .str "gateway_message"), ("content", content),
        ("received_at", .str receivedAt)]

/-! ## Liveness watchdog (`data_monitor`, api.py:735-750) -/

/-- Python `int()` on a rational: truncation toward zero. -/
def pyInt (q : ℚ) : ℤ :=
  if 0 ≤ q then ⌊q⌋ else -⌊-q⌋

/-- The fields of the gap-alert envelope (api.py:742-747): the message
text carries `int(diff)` and `polling_interval_ms`. -/
structure GapAlert where
  elapsedMs : ℤ
  intervalMs : ℤ
  last_data_at : ℚ
  ts : ℚ
deriving DecidableEq

/-- One tick of `data_monitor` (api.py:739-749): `diff = (now -
last_data_time).total_seconds() * 1000`; when `diff >
polling_interval_ms` the gap alert is broadcast to the observer pool and
the diagnostic line printed to stderr (same guard, api.py:741-749),
else nothing happens.  The tick keeps no state of its own, so the alert
re-fires on every tick the condition holds. -/
def data_monitor_tick (now last_data_time : ℚ) (polling_interval_ms : ℤ) :
    Option GapAlert :=
  let diff := (now - last_data_time) * 1000
  if (polling_interval_ms : ℚ) < diff then
    some ⟨pyInt diff, polling_interval_ms, last_data_time, now⟩
  else none

/-! ## Shared helper lemmas -/

/-- A pool splits into its live and dead members. -/
theorem alive_partition (pool : List Client) :
    (pool.filter (fun c => c.alive)).length
      + (pool.filter (fun c => !c.alive)).length = pool.length := by
  induction pool with
  | nil => rfl
  | cons c cs ih =>
    cases h : c.alive <;> simp [List.filter_cons, h] <;> omega

/-- The successful broadcast outcomes are exactly the live members. -/
theorem broadcast_successes (pool : List Client) (msg : String) :
    ((broadcast_to_frontend pool msg).1.filter (fun o => o.2)).map Prod.fst
      = pool.filter (fun c => c.alive) := by
  induction pool with
  | nil => rfl
  | cons c cs ih =>
    cases h : c.alive <;>
      simp_all [broadcast_to_frontend, send_text, List.filter_cons, h]

/-- With no threshold rows loaded, no pair ever alerts. -/
theorem checkPairs_nil_rows (now : ℚ) (ps : List (String × ℚ)) :
    checkPairs [] now ps = ([], []) := by
  induction ps with
  | nil => rfl
  | cons p rest ih =>
    obtain ⟨c, t⟩ := p
    simp [checkPairs, evalPair, lookupRow, ih]

/-- The early `return` on an empty snapshot (api.py:712-713) changes
nothing: the evaluator is its loop. -/
theorem check_eq_checkPairs (rows : List ThresholdRow) (now : ℚ)
    (data : DataPayload) :
    check_temperature_thresholds rows now data
      = checkPairs rows now (data.channels.zip data.temperatures) := by
  unfold check_temperature_thresholds
  by_cases h : rows = []
  · rw [if_pos h, h, checkPairs_nil_rows]
  · rw [if_neg h]

/-- Characterization of the per-pair guard chain of api.py:717-726. -/
theorem evalPair_eq_some (rows : List ThresholdRow) (now : ℚ) (c : String)
    (t : ℚ) (cd : String) (td th : ℚ) :
    evalPair rows now c t = some ⟨cd, td, th⟩ ↔
      cd = c ∧ td = t ∧ ∃ r, lookupRow rows c = some r ∧ r.enabled = true ∧
        r.threshold = some th ∧ th < t ∧
        (effectiveInterval r : ℚ) ≤ now - lastAlertOr0 r := by
  constructor
  · intro h
    unfold evalPair at h
    split at h
    · simp at h
    · rename_i r hl
      split at h
      · rename_i hr
        split at h
        · simp at h
        · rename_i th' hth
          split at h
          · rename_i h1
            split at h
            · rename_i h2
              injection h with h'
              injection h' with e1 e2 e3
              subst e1; subst e2; subst e3
              exact ⟨rfl, rfl, r, hl, hr, hth, h1, h2⟩
            · simp at h
          · simp at h
      · simp at h
  · rintro ⟨rfl, rfl, r, hl, hr, hth, h1, h2⟩
    simp [evalPair, hl, hr, hth, h1, h2]

/-- Membership in the evaluator's output is a per-pair matter: the loop
carries no cross-pair state (decisions are made against the snapshot). -/
theorem checkPairs_mem (rows : List ThresholdRow) (now : ℚ)
    (ps : List (String × ℚ)) (d : AlertDecision) :
    d ∈ (checkPairs rows now ps).1 ↔
      ∃ c t, (c, t) ∈ ps ∧ evalPair rows now c t = some d := by
  induction ps with
  | nil => simp [checkPairs]
  | cons p rest ih =>
    obtain ⟨c', t'⟩ := p
    unfold checkPairs
    cases he : evalPair rows now c' t' with
    | none =>
      simp only
      rw [ih]
      constructor
      · rintro ⟨c, t, hm, h⟩
        exact ⟨c, t, List.mem_cons_of_mem _ hm, h⟩
      · rintro ⟨c, t, hm, h⟩
        rcases List.mem_cons.mp hm with heq | hm'
        · injection heq with e1 e2
          subst e1; subst e2
          rw [he] at h; cases h
        · exact ⟨c, t, hm', h⟩
    | some d' =>
      simp only [List.mem_cons]
      constructor
      · rintro (rfl | hm)
        · exact ⟨c', t', Or.inl rfl, he⟩
        · obtain ⟨c, t, hm', h⟩ := ih.mp hm
          exact ⟨c, t, Or.inr hm', h⟩
      · rintro ⟨c, t, hm, h⟩
        rcases hm with heq | hm'
        · injection heq with e1 e2
          subst e1; subst e2
          rw [he] at h
          exact Or.inl (Option.some.inj h).symm
        · exact Or.inr (ih.mpr ⟨c, t, hm', h⟩)

/-- Every alert decision is accompanied by exactly its
`last_alert_ts := now` write, in the same iteration. -/
theorem checkPairs_writes (rows : List ThresholdRow) (now : ℚ)
    (ps : List (String × ℚ)) :
    (checkPairs rows now ps).2
      = (checkPairs rows now ps).1.map (fun d => (d.channel, now)) := by
  induction ps with
  | nil => rfl
  | cons p rest ih =>
    obtain ⟨c', t'⟩ := p
    unfold checkPairs
    cases he : evalPair rows now c' t' <;> simp [ih]

/-! ## Claim theorems -/

/-- Claim C4: a fetch request issued while the device pool is empty fails
immediately with `NoDevicesAvailable` (HTTP 503), no `"ftp-fetch"`
command is dispatched, and no part of the 60-second bounded wait is
incurred — the outcome is independent of any deliveries, and the queue is
untouched. -/
theorem fetch_empty_pool_fails_fast (queue : List ℕ)
    (deliveries : List (ℚ × ℕ)) :
    trigger_ftp_fetch 0 queue deliveries = ⟨.noDevices, false, queue⟩ := rfl

/-- Claim C5: broadcasting to an observer pool of `N` members of which
`k` are dead attempts delivery to all `N`, collects a per-client outcome
for each, succeeds for exactly the `N - k` live members, never raises a
per-client failure to its caller (the outcome list is total), and does
not remove any member from the pool. -/
theorem broadcast_best_effort (pool : List Client) (msg : String) :
    ((broadcast_to_frontend pool msg).1).length = pool.length ∧
    ((broadcast_to_frontend pool msg).1.filter (fun o => o.2)).map Prod.fst
      = pool.filter (fun c => c.alive) ∧
    ((broadcast_to_frontend pool msg).1.filter (fun o => o.2)).length
      = pool.length - (pool.filter (fun c => !c.alive)).length ∧
    (broadcast_to_frontend pool msg).2 = pool := by
  refine ⟨by simp [broadcast_to_frontend], broadcast_successes pool msg, ?_, rfl⟩
  have h1 := congrArg List.length (broadcast_successes pool msg)
  rw [List.length_map] at h1
  have h2 := alive_partition pool
  omega

/-- Claim C7: on a watchdog tick, the gap alert (with the elapsed
milliseconds and the configured interval, and the same guard as the
diagnostic log line) is emitted exactly when `now - lastMeasurementAt`
exceeds `pollingIntervalMs`; the tick is stateless so it re-fires every
tick the condition holds; and after a measurement at `m`, the next tick
— which arrives within half the polling interval (the loop sleeps
`polling_interval_ms / 1000 / 2` seconds, api.py:750) — sees no gap. -/
theorem watchdog_gap_alert (now last : ℚ) (I : ℤ) :
    ((I : ℚ) < (now - last) * 1000 →
      data_monitor_tick now last I
        = some ⟨pyInt ((now - last) * 1000), I, last, now⟩) ∧
    (¬ (I : ℚ) < (now - last) * 1000 → data_monitor_tick now last I = none) ∧
    (∀ m t : ℚ, 0 < I → (t - m) * 1000 ≤ (I : ℚ) / 2 →
      data_monitor_tick t m I = none) := by
  refine ⟨fun h => ?_, fun h => ?_, fun m t hI h => ?_⟩
  · unfold data_monitor_tick
    rw [if_pos h]
  · unfold data_monitor_tick
    rw [if_neg h]
  · unfold data_monitor_tick
    rw [if_neg]
    push_neg
    calc (t - m) * 1000 ≤ (I : ℚ) / 2 := h
    _ ≤ (I : ℚ) := by
        have : (0 : ℚ) < (I : ℚ) := by exact_mod_cast hI
        linarith

/-- Concrete run of `watchdog_gap_alert`: a 10-second silence against a
5000 ms interval alerts, a 2-second one does not. -/
theorem watchdog_gap_alert_witness :
    data_monitor_tick 10 0 5000 = some ⟨10000, 5000, 0, 10⟩ ∧
    data_monitor_tick 2 0 5000 = none := by
  constructor
  · have h := (watchdog_gap_alert 10 0 5000).1 (by norm_num)
    rw [h]
    norm_num [pyInt]
  · exact (watchdog_gap_alert 2 0 5000).2.2 0 2 (by norm_num) (by norm_num)

/-- Claim C10: every iteration of the device-stream receive loop — for
any message, whether a measurement, an opaque event, or text that fails
to parse — overwrites `last_data_time` with the current time, so any
watchdog tick within the polling interval of the message sees no gap. -/
theorem stream_message_resets_gap_timer (parsed : Option Json)
    (text : String) (now : ℚ) (I : ℤ) :
    (ws_gateway_step parsed text now).1 = now ∧
    (∀ t : ℚ, (t - now) * 1000 ≤ (I : ℚ) →
      data_monitor_tick t (ws_gateway_step parsed text now).1 I = none) := by
  refine ⟨rfl, fun t ht => ?_⟩
  unfold ws_gateway_step data_monitor_tick
  rw [if_neg (not_lt.mpr ht)]

/-- Concrete run of `stream_message_resets_gap_timer`: an unparseable
message at time 5 resets the timer; a tick one second later (within the
1000 ms interval) raises no gap alert. -/
theorem stream_message_resets_gap_timer_witness :
    (ws_gateway_step none "x" 5).1 = 5 ∧
    data_monitor_tick 6 (ws_gateway_step none "x" 5).1 1000 = none :=
  ⟨(stream_message_resets_gap_timer none "x" 5 1000).1,
   (stream_message_resets_gap_timer none "x" 5 1000).2 6 (by norm_num)⟩

/-- Claim C2, counterexample: with one device connected, coroutine 7
already suspended in `ftp_file_queue.get()` (an Awaiting fetch) and an
empty queue, a second fetch request (coroutine 8) does not fail — it
dispatches the command again and joins the getter FIFO behind the first
request.  `trigger_ftp_fetch` has no already-awaiting guard at all. -/
theorem concurrent_fetch_not_rejected :
    trigger_ftp_fetch_entry ⟨1, [], [7]⟩ 8
      = ⟨.awaiting, true, ⟨1, [], [7, 8]⟩⟩ ∧
    (trigger_ftp_fetch_entry ⟨1, [], [7]⟩ 8).outcome ≠ .noDevices :=
  ⟨rfl, by decide⟩

/-- Claim C2, amended: a fetch request arriving while another fetch is
Awaiting is not rejected; provided at least one device is connected (the
only guard in the code) it dispatches the `"ftp-fetch"` command again and
appends itself to the delivery queue's getter FIFO behind every request
already waiting, leaving the first request's position (the FIFO head)
undisturbed. -/
theorem concurrent_fetch_queues_behind (s : QState) (w : ℕ)
    (hg : s.gateways ≠ 0) (hq : s.queue = []) :
    trigger_ftp_fetch_entry s w
      = ⟨.awaiting, true, ⟨s.gateways, [], s.getters ++ [w]⟩⟩ := by
  unfold trigger_ftp_fetch_entry
  rw [if_neg hg, hq]

/-- Concrete run of `concurrent_fetch_queues_behind`: two devices, getter
5 already awaiting, request 9 joins behind it. -/
theorem concurrent_fetch_queues_behind_witness :
    trigger_ftp_fetch_entry ⟨2, [], [5]⟩ 9
      = ⟨.awaiting, true, ⟨2, [], [5, 9]⟩⟩ :=
  concurrent_fetch_queues_behind ⟨2, [], [5]⟩ 9 (by decide) rfl

/-- Claim C3, counterexample: a fetch whose delivery (artifact 1) arrives
only at t = 100 > 60 times out, but the late delivery stays in
`ftp_file_queue` — the slot is not clean.  The next fetch request then
receives the stale artifact 1 immediately, even though its own delivery
(artifact 2) arrives at t = 5 < 60; and artifact 1 is not artifact 2. -/
theorem timed_out_fetch_leaves_stale_delivery :
    trigger_ftp_fetch 1 [] [(100, 1)] = ⟨.timeout, true, [1]⟩ ∧
    trigger_ftp_fetch 1 [1] [(5, 2)] = ⟨.file 1, true, [2]⟩ ∧
    FetchResult.file 1 ≠ FetchResult.file 2 :=
  ⟨rfl, rfl, by decide⟩

/-- Claim C3, amended: with at least one device connected and the
delivery queue empty when the wait begins, a delivery arriving strictly
before the 60-second timeout resolves the request with exactly that
artifact; if nothing arrives within the bound the requester gets
`FetchTimeout` and the getter is cancelled (later fetches are not
blocked), but the queue is not drained: every delivery of the timed-out
exchange remains queued for the next fetch request. -/
theorem fetch_resolution (g : ℕ) (ds : List (ℚ × ℕ)) (hg : g ≠ 0) :
    (∀ t a rest, ds = (t, a) :: rest → t < 60 →
      trigger_ftp_fetch g [] ds = ⟨.file a, true, rest.map Prod.snd⟩) ∧
    ((∀ p ∈ ds, (60 : ℚ) ≤ p.1) →
      trigger_ftp_fetch g [] ds = ⟨.timeout, true, ds.map Prod.snd⟩) := by
  constructor
  · rintro t a rest rfl hlt
    unfold trigger_ftp_fetch
    rw [if_neg hg]
    simp [hlt]
  · intro hall
    unfold trigger_ftp_fetch
    rw [if_neg hg]
    cases ds with
    | nil => rfl
    | cons p rest =>
      obtain ⟨t, a⟩ := p
      have h60 : (60 : ℚ) ≤ t := hall (t, a) (List.mem_cons_self _ _)
      simp [not_lt.mpr h60]

/-- Concrete run of `fetch_resolution`: a delivery at t = 10 resolves
with that artifact; a delivery at t = 60 leaves a timeout and the
artifact queued. -/
theorem fetch_resolution_witness :
    trigger_ftp_fetch 1 [] [((10 : ℚ), 3)] = ⟨.file 3, true, []⟩ ∧
    trigger_ftp_fetch 1 [] [((60 : ℚ), 4)] = ⟨.timeout, true, [4]⟩ := by
  constructor
  · exact (fetch_resolution 1 [((10 : ℚ), 3)] (by decide)).1 10 3 [] rfl
      (by norm_num)
  · exact (fetch_resolution 1 [((60 : ℚ), 4)] (by decide)).2
      (by intro p hp; rcases List.mem_singleton.mp hp with rfl; norm_num)

/-- Claim C6, counterexample: the message `{"data": 5}` contains no
`device_id` field and no nested `data` *object* (its `data` member is the
number 5), so by the claim it must be relayed as a `gateway_message`
envelope without failing.  The code checks only key presence
(api.py:493), takes the measurement path with `payload = 5`, and
`payload.get('device_id')` (api.py:496) raises `AttributeError`, tearing
the connection down. -/
theorem non_object_data_key_crashes :
    (Json.obj [("data", .num 5)]).get? "device_id" = none ∧
    (Json.obj [("data", .num 5)]).get? "data" = some (.num 5) ∧
    ws_dispatch (some (.obj [("data", .num 5)])) "x" = .crash :=
  ⟨rfl, rfl, rfl⟩

/-- Claim C6, amended: an inbound device-stream message that is not a
dict with a `device_id` or `data` *key* — the code tests key presence,
not that the `data` value is an object — is broadcast as a
`gateway_message` envelope, not persisted and not threshold-evaluated;
text that fails to parse is first downgraded to `{"raw": <text>}` and
that wrapper (not the bare original) becomes the envelope's `content`.
A dict whose `data` key holds a non-object instead takes the measurement
path and crashes the connection. -/
theorem opaque_message_relayed (parsed : Option Json) (text : String) :
    (∀ j, parsed = some j → measurementCandidate j = false →
      ws_dispatch parsed text = .gatewayMessage j) ∧
    (parsed = none →
      ws_dispatch parsed text
        = .gatewayMessage (.obj [("raw", .str text)])) := by
  constructor
  · rintro j rfl hj
    unfold ws_dispatch parsedData
    simp [hj]
  · rintro rfl
    rfl

/-- Concrete runs of `opaque_message_relayed`: a JSON array and an
unparseable text are both relayed as gateway messages. -/
theorem opaque_message_relayed_witness :
    ws_dispatch (some (.arr [])) "t" = .gatewayMessage (.arr []) ∧
    ws_dispatch none "hello"
      = .gatewayMessage (.obj [("raw", .str "hello")]) :=
  ⟨(opaque_message_relayed (some (.arr [])) "t").1 (.arr []) rfl rfl,
   (opaque_message_relayed none "hello").2 rfl⟩

/-- Claim C8, counterexample: for the measurement
`{timestamp: 1700000000, device_id: "umx-1", channels: ["T1"],
temperatures: [36], raw_registers: [360]}` the request-style broadcast
envelope (fields spread at top level, api.py:289-293) differs from the
stream-style one (fields nested under `"payload"`, api.py:512-517), so
the two ingestion paths are not observationally equivalent at the
broadcast boundary. -/
theorem measurement_envelopes_differ :
    restMeasurementEnvelope ⟨1700000000, "umx-1", ["T1"], [36], [360]⟩ "r"
      ≠ wsMeasurementEnvelope
          (.obj (payloadFields ⟨1700000000, "umx-1", ["T1"], [36], [360]⟩))
          "r" := by
  intro h
  have h' := congrArg
    (fun j => match j with | Json.obj l => l.length | _ => 0) h
  simp [restMeasurementEnvelope, wsMeasurementEnvelope, payloadFields] at h'

/-- Claim C8, amended: both ingestion paths broadcast an envelope with
`type = "measurement"` and the shared `received_at`, carrying the same
normalized fields — but in different shapes: the request-style path
spreads the fields at top level (so e.g. `timestamp` is a top-level
key), while the stream-style path nests them under a `"payload"` key and
adds a top-level `device_id`; the two envelopes are never equal. -/
theorem measurement_envelope_shapes (p : DataPayload) (r : String) :
    (restMeasurementEnvelope p r).get? "type" = some (.str "measurement") ∧
    (wsMeasurementEnvelope (.obj (payloadFields p)) r).get? "type"
      = some (.str "measurement") ∧
    (restMeasurementEnvelope p r).get? "received_at" = some (.str r) ∧
    (wsMeasurementEnvelope (.obj (payloadFields p)) r).get? "received_at"
      = some (.str r) ∧
    (wsMeasurementEnvelope (.obj (payloadFields p)) r).get? "payload"
      = some (.obj (payloadFields p)) ∧
    (restMeasurementEnvelope p r).get? "timestamp" = some (.num p.timestamp) ∧
    (wsMeasurementEnvelope (.obj (payloadFields p)) r).get? "timestamp"
      = none ∧
    restMeasurementEnvelope p r
      ≠ wsMeasurementEnvelope (.obj (payloadFields p)) r := by
  refine ⟨rfl, rfl, rfl, rfl, rfl, rfl, rfl, ?_⟩
  intro h
  have h' := congrArg
    (fun j => match j with | Json.obj l => l.length | _ => 0) h
  simp [restMeasurementEnvelope, wsMeasurementEnvelope, payloadFields] at h'

/-- Claim C1, counterexample: a policy for `"T1"` that is enabled, has
threshold 10 and `alert_interval_sec = 0`, never alerted before
(`last_alert_ts` null), evaluated at `now = 100` on temperature 20:
the claim's condition holds — the policy exists, `20 > 10`, and
`now - (lastAlertAt or 0) = 100 ≥ 0 = alertIntervalSeconds` — yet the
evaluator emits no alert, because `interval =
threshold_config.get('alert_interval_sec') or 300` (api.py:725) turns
the stored 0 into 300 and `100 >= 300` fails. -/
theorem zero_interval_policy_no_alert :
    lookupRow [⟨"T1", true, some 10, some 0, none⟩] "T1"
      = some ⟨"T1", true, some 10, some 0, none⟩ ∧
    ((10 : ℚ) < 20) ∧
    (((0 : ℤ) : ℚ) ≤ 100 - lastAlertOr0 ⟨"T1", true, some 10, some 0, none⟩) ∧
    (check_temperature_thresholds [⟨"T1", true, some 10, some 0, none⟩] 100
        ⟨0, "d", ["T1"], [20], [200]⟩).1 = [] :=
  ⟨rfl, by norm_num, by norm_num [lastAlertOr0],
   by norm_num [check_temperature_thresholds, checkPairs, evalPair,
     lookupRow, effectiveInterval, lastAlertOr0]⟩

/-- Claim C1, amended: the evaluator emits an alert for a
`(channel, temperature)` pair of the measurement exactly when a policy
row for the channel exists in the snapshot fetched at the start of the
evaluation, is enabled, has a non-null threshold, the temperature is
strictly above it (equality never alerts), and
`now - (lastAlertAt or 0) >= I` where `I` is `alertIntervalSeconds` when
set *and nonzero*, and 300 otherwise; each alert is accompanied by a
`lastAlertAt := now` write to the config store in the same step, and a
pair failing the debounce produces no alert and no write. -/
theorem threshold_evaluator_characterization (rows : List ThresholdRow)
    (now : ℚ) (data : DataPayload) (c : String) (t th : ℚ) :
    ((⟨c, t, th⟩ : AlertDecision)
        ∈ (check_temperature_thresholds rows now data).1 ↔
      (c, t) ∈ data.channels.zip data.temperatures ∧
      ∃ r, lookupRow rows c = some r ∧ r.enabled = true ∧
        r.threshold = some th ∧ th < t ∧
        (effectiveInterval r : ℚ) ≤ now - lastAlertOr0 r) ∧
    (check_temperature_thresholds rows now data).2
      = (check_temperature_thresholds rows now data).1.map
          (fun d => (d.channel, now)) := by
  constructor
  · rw [check_eq_checkPairs, checkPairs_mem]
    constructor
    · rintro ⟨c₁, t₁, hm, he⟩
      obtain ⟨rfl, rfl, hr⟩ := (evalPair_eq_some rows now c₁ t₁ c t th).mp he
      exact ⟨hm, hr⟩
    · rintro ⟨hm, hr⟩
      exact ⟨c, t, hm, (evalPair_eq_some rows now c t c t th).mpr ⟨rfl, rfl, hr⟩⟩
  · rw [check_eq_checkPairs]
    exact checkPairs_writes rows now _

/-- Encoded string lists validate back to themselves. -/
theorem listParse_map_str (cs : List String) :
    listParse asStr (cs.map .str) = some cs := by
  induction cs with
  | nil => rfl
  | cons c cs ih => simp [listParse, asStr, ih]

/-- Encoded number lists validate back to themselves. -/
theorem listParse_map_num (ts : List ℚ) :
    listParse asNum (ts.map .num) = some ts := by
  induction ts with
  | nil => rfl
  | cons t ts ih => simp [listParse, asNum, ih]

/-- An integer-valued JSON number validates as the integer. -/
theorem asInt_intCast (z : ℤ) : asInt (.num (z : ℚ)) = some z := by
  simp [asInt]

/-- Encoded integer lists validate back to themselves. -/
theorem listParse_map_int (zs : List ℤ) :
    listParse asInt (zs.map (fun z : ℤ => Json.num (z : ℚ))) = some zs := by
  induction zs with
  | nil => rfl
  | cons z zs ih =>
    simp only [List.map_cons, listParse, asInt_intCast, ih]
    rfl

/-- A well-typed encoded submission round-trips through `DataPayload`
validation, whatever the three sequence lengths are. -/
theorem parse_encode (ts : ℚ) (id : String) (cs : List String)
    (temps : List ℚ) (regs : List ℤ) :
    parseDataPayload (encodePayload ts id cs temps regs)
      = some ⟨ts, id, cs, temps, regs⟩ := by
  have h1 : ((encodePayload ts id cs temps regs).get? "timestamp").bind asNum
      = some ts := rfl
  have h2 : ((encodePayload ts id cs temps regs).get? "device_id").bind asStr
      = some id := rfl
  have h3 : ((encodePayload ts id cs temps regs).get? "channels").bind
      (asList asStr) = some cs := by
    rw [show (encodePayload ts id cs temps regs).get? "channels"
        = some (.arr (cs.map .str)) from rfl]
    simp [asList, listParse_map_str]
  have h4 : ((encodePayload ts id cs temps regs).get? "temperatures").bind
      (asList asNum) = some temps := by
    rw [show (encodePayload ts id cs temps regs).get? "temperatures"
        = some (.arr (temps.map .num)) from rfl]
    simp [asList, listParse_map_num]
  have h5 : ((encodePayload ts id cs temps regs).get? "raw_registers").bind
      (asList asInt) = some regs := by
    rw [show (encodePayload ts id cs temps regs).get? "raw_registers"
        = some (.arr (regs.map (fun z : ℤ => Json.num (z : ℚ)))) from rfl]
    simp only [Option.some_bind, asList, listParse_map_int]
  unfold parseDataPayload
  simp only [h1, h2, h3, h4, h5]
  rfl

/-- `zip` only ever reaches the common prefix of its two lists. -/
theorem zip_take_min (cs : List String) (ts : List ℚ) :
    cs.zip ts = (cs.take (min cs.length ts.length)).zip
      (ts.take (min cs.length ts.length)) := by
  induction cs generalizing ts with
  | nil => simp
  | cons c cs ih =>
    cases ts with
    | nil => simp
    | cons t ts =>
      simp only [List.length_cons, Nat.succ_min_succ, List.take_succ_cons,
        List.zip_cons_cons]
      rw [← ih]

/-- Claim C9, counterexample: the submission `{timestamp: 1,
device_id: "d", channels: ["T1", "T2"], temperatures: [50],
raw_registers: [1, 2, 3]}` — sequence lengths 2, 1 and 3 — passes
`DataPayload` validation, and is then processed as a measurement: with an
enabled policy `T1 / threshold 35 / interval 60`, threshold evaluation
emits an alert for the zipped pair `("T1", 50)`. -/
theorem unequal_lengths_accepted :
    parseDataPayload (encodePayload 1 "d" ["T1", "T2"] [50] [1, 2, 3])
      = some ⟨1, "d", ["T1", "T2"], [50], [1, 2, 3]⟩ ∧
    ([("T1" : String), "T2"].length ≠ ([(50 : ℚ)]).length) ∧
    (check_temperature_thresholds [⟨"T1", true, some 35, some 60, none⟩] 100
        ⟨1, "d", ["T1", "T2"], [50], [1, 2, 3]⟩).1 = [⟨"T1", 50, 35⟩] := by
  refine ⟨parse_encode 1 "d" ["T1", "T2"] [50] [1, 2, 3], by decide, ?_⟩
  norm_num [check_temperature_thresholds, checkPairs, evalPair,
    lookupRow, effectiveInterval, lastAlertOr0]

/-- Claim C9, amended: the hub does not enforce the equal-length
invariant — a submission whose field values are well-typed is accepted
whatever the three sequence lengths are — and threshold evaluation
simply pairs channels with temperatures positionally up to the shorter
length (`zip` truncation), so the decisions are unchanged if both
sequences are cut to their common prefix. -/
theorem validation_ignores_lengths (ts : ℚ) (id : String)
    (cs : List String) (temps : List ℚ) (regs : List ℤ)
    (rows : List ThresholdRow) (now : ℚ) :
    parseDataPayload (encodePayload ts id cs temps regs)
      = some ⟨ts, id, cs, temps, regs⟩ ∧
    (check_temperature_thresholds rows now ⟨ts, id, cs, temps, regs⟩).1
      = (check_temperature_thresholds rows now
          ⟨ts, id, cs.take (min cs.length temps.length),
           temps.take (min cs.length temps.length), regs⟩).1 := by
  constructor
  · exact parse_encode ts id cs temps regs
  · rw [check_eq_checkPairs, check_eq_checkPairs]
    dsimp only
    rw [← zip_take_min]

end RadixIoT
